import Mathlib

/-!
Verification of the privilege-separation RPC core (`src/bin/cluelesshd/src/rpc.rs`)
and the client connection driver (`src/lib/ssh-tokio/src/client.rs`) of the
`Noratrieb/ssh` repository, as a shallow embedding in Lean 4.

External collaborators (the `crate::auth` policy, the PTY factory, process
spawning, child reaping) are modelled as oracle functions gathered in an
`ExternalEnv` record; socket sends are modelled as effects in an output trace.
Machine integers are modelled as `Nat` with explicit `% 2 ^ w` where the source
performs a narrowing cast.
-/

namespace Cluelesshd

/-- Byte sequences (`Vec<u8>`, `[u8; 32]`, …) are modelled as lists of `Nat`. -/
abbrev Bytes := List Nat

/-- A system user as produced by the `users` crate: `users::User` together with
the accessors used by the code (`name`, `uid`, `primary_group_id`, `home_dir`,
`shell`). `uid`/`gid` are `u32` in the source, modelled as `Nat`. -/
structure User where
  name : String
  uid : Nat
  gid : Nat
  homeDir : String
  shellPath : String
deriving DecidableEq, Repr

/-- A private host key: the public key derivable from it
(`private_key.public_key()`) and the signing operation (`private_key.sign`),
which is an external cryptographic routine modelled as a function. -/
structure PrivateKey where
  publicKey : Bytes
  signBytes : Bytes → Bytes

/-- `cluelessh_keys::private::PlaintextPrivateKey`, of which only the
`private_key` field is used by the RPC server. -/
structure PlaintextPrivateKey where
  privateKey : PrivateKey

/-- `PtyRequest` from rpc.rs: all four dimensions are `u32` in the source. -/
structure PtyRequest where
  heightRows : Nat
  widthChars : Nat
  widthPx : Nat
  heightPx : Nat
  termModes : Bytes
deriving DecidableEq, Repr

/-- `ShellRequest` from rpc.rs. -/
structure ShellRequest where
  ptyTerm : Option String
  command : Option String
  env : List (String × String)
deriving DecidableEq, Repr

/-- Argument bundle of `Request::CheckPublicKey` / `cluelessh_protocol::auth::CheckPubkey`. -/
structure CheckPubkeyArgs where
  user : String
  sessionIdentifier : Bytes
  pubkeyAlgName : String
  pubkey : Bytes
deriving DecidableEq, Repr

/-- Argument bundle of `Request::VerifySignature` / `cluelessh_protocol::auth::VerifySignature`. -/
structure VerifySignatureArgs where
  user : String
  sessionIdentifier : Bytes
  pubkeyAlgName : String
  pubkey : Bytes
  signature : Bytes
deriving DecidableEq, Repr

/-- The `Request` enum of rpc.rs. -/
inductive Request where
  | sign (hash : Bytes) (publicKey : Bytes)
  | checkPublicKey (args : CheckPubkeyArgs)
  | verifySignature (args : VerifySignatureArgs)
  | ptyReq (req : PtyRequest)
  | shell (req : ShellRequest)
  | wait
deriving DecidableEq, Repr

/-- `rustix::termios::Winsize`: all four fields are `u16` on the machine; the
source fills them with `as u16` casts from `u32`, modelled as `% 2 ^ 16`. -/
structure Winsize where
  row : Nat
  col : Nat
  xpixel : Nat
  ypixel : Nat
deriving DecidableEq, Repr

/-- A freshly allocated pseudo-terminal (`crate::pty::Pty`): the controller FD
and the subordinate (`user_pty`) FD. FDs are modelled as `Nat`. -/
structure Pty where
  controller : Nat
  userPty : Nat
deriving DecidableEq, Repr

/-- A spawned child process handle (`tokio::process::Child`). The three FDs are
the parent-side ends of the stdio pipes; they are meaningful exactly when the
command was configured with `Stdio::piped()` for the three streams. -/
structure Child where
  stdinFd : Nat
  stdoutFd : Nat
  stderrFd : Nat
deriving DecidableEq, Repr

/-- The observable configuration accumulated on a `tokio::process::Command`
builder by `Server::shell`: program, arguments, the environment operations
applied after `env_clear()` (in order; a later binding for the same key
overrides an earlier one), working directory, uid, gid, stdio configuration and
the attached PTY session. -/
structure Cmd where
  program : String
  args : List String
  envCleared : Bool
  envOps : List (String × String)
  currentDir : Option String
  uid : Option Nat
  gid : Option Nat
  stdinPiped : Bool
  stdoutPiped : Bool
  stderrPiped : Bool
  ptySession : Option Nat
deriving DecidableEq, Repr

/-- The payload of one response datagram (`ResponseResult<T>` for the various
`T`): an `Ok` of the type matching the request, or `Err(String)`. -/
inductive RespPayload where
  | okSignature (sig : Bytes)
  | okBool (b : Bool)
  | okUnit
  | okExitCode (code : Option Int)
  | err (msg : String)
deriving DecidableEq, Repr

/-- One observable action of the server while handling a request: a response
datagram sent on the socket (payload plus ancillary FDs), or an invocation of
one of the external collaborators. -/
inductive Effect where
  | reply (payload : RespPayload) (fds : List Nat)
  | callCheckPubkey (args : CheckPubkeyArgs)
  | callVerifySignature (args : VerifySignatureArgs)
  | callPtyNew (ws : Winsize) (modes : Bytes)
  | callSpawn (cmd : Cmd)
  | callWaitChild
deriving DecidableEq, Repr

/-- The external collaborators of the RPC server, as oracles:
`crate::auth::check_pubkey`, `crate::auth::verify_signature` (returning
`Some user` on success, `None` on a failed check), `crate::pty::Pty::new`,
`Command::spawn` and `Child::wait`. Each returns `Except String` mirroring the
source's `.map_err(|err| err.to_string())` conversions. -/
structure ExternalEnv where
  checkPubkey : CheckPubkeyArgs → Except String Bool
  verifySignature : VerifySignatureArgs → Except String (Option User)
  ptyNew : Winsize → Bytes → Except String Pty
  spawn : Cmd → Except String Child
  waitChild : Child → Except String (Option Int)

/-- The mutable state of `Server` (rpc.rs lines 115–123): the loaded host keys
and the three resource slots. The socket pair itself carries no protocol
state and is not modelled. -/
structure ServerState where
  hostKeys : List PlaintextPrivateKey
  authenticatedUser : Option User
  ptyUser : Option Nat
  shellProcess : Option Child

/-- `Server::new`: all three slots start out empty. -/
def ServerState.new (hostKeys : List PlaintextPrivateKey) : ServerState :=
  { hostKeys := hostKeys
    authenticatedUser := none
    ptyUser := none
    shellProcess := none }

/-- Modelled from the spec: `crate::pty::start_session_for_command` (in
`src/bin/cluelesshd/src/pty.rs`, which is not under src/) attaches the
subordinate PTY to the command — new session, controlling terminal, std
streams connected to it — and sets the `TERM` environment variable to the
given term (spec §4.2: "the child is placed in a new session with the
subordinate PTY as its controlling terminal and its std streams connected to
it"; "`TERM = pty_term` if a PTY is in use"). -/
def startSessionForCommand (ptyFd : Nat) (term : String) (cmd : Cmd) : Cmd :=
  { cmd with
      ptySession := some ptyFd
      envOps := cmd.envOps ++ [("TERM", term)] }

/-- The command built by `Server::shell` (rpc.rs lines 296–337): program is the
user's shell, `-c command` when a command is given, environment cleared, then
the PTY session attachment (which contributes `TERM`) or piped stdio, then the
working directory, the `USER` variable, uid and gid of the authenticated user,
and finally the client-supplied environment pairs, in this order. -/
def buildShellCmd (ptyUserFd : Option Nat) (user : User) (req : ShellRequest) : Cmd :=
  let base : Cmd :=
    { program := user.shellPath
      args := match req.command with
        | some c => ["-c", c]
        | none => []
      envCleared := true
      envOps := []
      currentDir := none
      uid := none
      gid := none
      stdinPiped := false
      stdoutPiped := false
      stderrPiped := false
      ptySession := none }
  let cmd1 := match req.ptyTerm, ptyUserFd with
    | some term, some fd => startSessionForCommand fd term base
    | some _, none => base
    | none, _ =>
      { base with stdinPiped := true, stdoutPiped := true, stderrPiped := true }
  { cmd1 with
      currentDir := some user.homeDir
      envOps := cmd1.envOps ++ [("USER", user.name)] ++ req.env
      uid := some user.uid
      gid := some user.gid }

/-- `Server::shell` (rpc.rs lines 296–337): checks the PTY agreement, builds
the command, spawns it, and returns the three parent-side stdio FDs when no
PTY is in use (otherwise no FDs) together with the child handle. Returns the
error string on failure (the caller applies `.map_err(|err| err.to_string())`).
The second component is the trace of external calls made. -/
def serverShell (ptyUserFd : Option Nat) (ext : ExternalEnv) (user : User)
    (req : ShellRequest) : Except String (List Nat × Child) × List Effect :=
  if req.ptyTerm.isSome ≠ ptyUserFd.isSome then
    (.error "Mismatch between client and server PTY requests", [])
  else
    match req.ptyTerm, ptyUserFd with
    | some _, none => (.error "no pty requested before", [])
    | _, _ =>
      let cmd := buildShellCmd ptyUserFd user req
      match ext.spawn cmd with
      | .error e => (.error e, [.callSpawn cmd])
      | .ok child =>
        if req.ptyTerm.isSome then
          (.ok ([], child), [.callSpawn cmd])
        else
          (.ok ([child.stdinFd, child.stdoutFd, child.stderrFd], child),
            [.callSpawn cmd])

/-- `Server::receive_message` (rpc.rs lines 151–294): services one request,
returning the new server state and the ordered trace of observable effects
(responses sent and external calls made). In the source the function returns
`Result<()>` whose only failure modes are transport/OS errors on the response
socket and `try_clone`; those are modelled as infallible, so the step function
is total. Note that in the `VerifySignature` arm, when a user is already
authenticated the source sends an error response but does **not** return: it
still invokes the verifier and sends a second response, possibly overwriting
the stored user. -/
def receiveMessage (st : ServerState) (ext : ExternalEnv) (req : Request) :
    ServerState × List Effect :=
  match req with
  | .sign hash publicKey =>
    match st.hostKeys.find? (fun pk => pk.privateKey.publicKey == publicKey) with
    | none => (st, [.reply (.err "missing private key") []])
    | some pk => (st, [.reply (.okSignature (pk.privateKey.signBytes hash)) []])
  | .checkPublicKey args =>
    match ext.checkPubkey args with
    | .ok b => (st, [.callCheckPubkey args, .reply (.okBool b) []])
    | .error e => (st, [.callCheckPubkey args, .reply (.err e) []])
  | .verifySignature args =>
    let pre : List Effect :=
      if st.authenticatedUser.isSome then
        [.reply (.err "user already authenticated") []]
      else []
    match ext.verifySignature args with
    | .error e => (st, pre ++ [.callVerifySignature args, .reply (.err e) []])
    | .ok none => (st, pre ++ [.callVerifySignature args, .reply (.okBool false) []])
    | .ok (some usr) =>
      ({ st with authenticatedUser := some usr },
        pre ++ [.callVerifySignature args, .reply (.okBool true) []])
  | .ptyReq req =>
    if st.ptyUser.isSome then
      (st, [.reply (.err "already requests pty") []])
    else
      let ws : Winsize :=
        { row := req.widthChars % 2 ^ 16
          col := req.heightRows % 2 ^ 16
          xpixel := req.widthPx % 2 ^ 16
          ypixel := req.heightPx % 2 ^ 16 }
      match ext.ptyNew ws req.termModes with
      | .ok pty =>
        ({ st with ptyUser := some pty.userPty },
          [.callPtyNew ws req.termModes, .reply .okUnit [pty.controller]])
      | .error e => (st, [.callPtyNew ws req.termModes, .reply (.err e) []])
  | .shell req =>
    if st.shellProcess.isSome then
      (st, [.reply (.err "process already running") []])
    else
      match st.authenticatedUser with
      | none => (st, [.reply (.err "unauthenticated") []])
      | some user =>
        match serverShell st.ptyUser ext user req with
        | (.error e, effs) => (st, effs ++ [.reply (.err e) []])
        | (.ok (fds, child), effs) =>
          ({ st with shellProcess := some child }, effs ++ [.reply .okUnit fds])
  | .wait =>
    match st.shellProcess with
    | none => (st, [.reply (.err "no child running") []])
    | some child =>
      match ext.waitChild child with
      | .ok code =>
        ({ st with shellProcess := none }, [.callWaitChild, .reply (.okExitCode code) []])
      | .error e =>
        ({ st with shellProcess := none }, [.callWaitChild, .reply (.err e) []])

/-- One iteration of `Server::process` (rpc.rs lines 143–149): after receiving
a request datagram together with its ancillary FDs, `ensure!(fds.is_empty())`
makes any FDs in a request fatal to the whole RPC session; otherwise the
request is serviced by `receive_message`. -/
def processStep (st : ServerState) (ext : ExternalEnv) (req : Request)
    (reqFds : List Nat) : Except String (ServerState × List Effect) :=
  if reqFds.isEmpty then .ok (receiveMessage st ext req)
  else .error "Client sent FDs in request"

/-- Folding `receive_message` over a sequence of requests, accumulating the
effect trace: the behaviour of the `Server::process` loop on a stream of
FD-free request datagrams. -/
def execRequests (ext : ExternalEnv) : ServerState → List Request →
    ServerState × List Effect
  | st, [] => (st, [])
  | st, r :: rs =>
    let step := receiveMessage st ext r
    let rest := execRequests ext step.1 rs
    (rest.1, step.2 ++ rest.2)

/-- The environment a spawned child actually sees: the `envOps` write sequence
applied left to right to the empty environment (the builder starts from
`env_clear()`), with a later write to a key overriding an earlier one. -/
def applyEnvOps (ops : List (String × String)) : String → Option String :=
  ops.foldl (fun m kv => fun k => if k = kv.1 then some kv.2 else m k)
    (fun _ => none)

/-! ### The datagram transport (`receive_with_fds`, rpc.rs lines 522–551)

The source function is generic over the deserialized type `R` (postcard via
serde); the model takes the deserializer as a parameter. The kernel delivery of
`recvmsg` on the connected `SOCK_DGRAM` socket is part of the definition:
the payload is read into a fixed `[0; 1024]` buffer, so at most the first 1024
bytes of the datagram are delivered (`read.bytes`); the ancillary buffer is
`cmsg_space!(ScmRights(3))`, so at most the first three passed FDs are
delivered. `recvmsg` reports truncation of either part through its returned
flags (`MSG_TRUNC` / `MSG_CTRUNC`), but the source only ever reads
`read.bytes` and never inspects the flags. -/

/-- The deserialized form of a `ResponseResult<()>` = `Result<(), String>`
payload, with the error string kept as its raw bytes. -/
inductive ResultUnitMsg where
  | okUnit
  | errMsg (msgBytes : Bytes)
deriving DecidableEq, Repr

/-- LEB128-style varint decoding as used by the postcard wire format for
length and discriminant encodings: returns the value and the remaining bytes.
(The model does not reject over-long varint encodings; no claim depends on
them.) -/
def parseVarint : Bytes → Option (Nat × Bytes)
  | [] => none
  | b :: rest =>
    if b < 128 then some (b, rest)
    else (parseVarint rest).map fun nr => (b % 128 + 128 * nr.1, nr.2)

/-- `postcard::from_bytes::<Result<(), String>>`: discriminant 0 is `Ok(())`
(unit occupies no bytes), discriminant 1 is `Err` followed by a
varint-length-prefixed string. Per postcard, `from_bytes` deserializes a value
from the front of the slice and ignores any unused trailing bytes. (The UTF-8
validity check on the string bytes is not modelled; no claim depends on it.) -/
def parseResultUnit (bs : Bytes) : Option ResultUnitMsg :=
  match bs with
  | 0 :: _ => some .okUnit
  | 1 :: rest =>
    (parseVarint rest).bind fun lr =>
      if lr.1 ≤ lr.2.length then some (.errMsg (lr.2.take lr.1)) else none
  | _ => none

/-- `receive_with_fds` (rpc.rs lines 522–551): one datagram of `payload` bytes
carrying `fds` passed file descriptors (and possibly an ancillary message of a
kind other than `ScmRights`, abstracted by `hasOtherAnc`) is received. The
kernel delivers `payload.take 1024` into the fixed buffer and the first three
FDs into the ancillary buffer; the payload prefix is deserialized (failure:
"invalid request"), then the ancillary messages are drained, failing on any
non-rights message. -/
def receiveWithFds {α : Type} (parse : Bytes → Option α) (payload : Bytes)
    (fds : List Nat) (hasOtherAnc : Bool) : Except String (α × List Nat) :=
  let data := payload.take 1024
  let deliveredFds := fds.take 3
  match parse data with
  | none => .error "invalid request"
  | some v =>
    if hasOtherAnc then .error "unexpected ancillery msg"
    else .ok (v, deliveredFds)

end Cluelesshd

namespace SshTokio

/-! ### The client connection driver (`src/lib/ssh-tokio/src/client.rs`)

Only the parts the claims are about are embedded: the channel table and the
delivery of channel updates in `ClientConnection::progress` (lines 122–181),
`open_channel` (lines 248–273) and `PendingChannel::wait_ready`
(lines 276–284). The table is a `HashMap<ChannelNumber, ChannelState>`,
modelled as a function from channel numbers to optional states; the oneshot
readiness signal and the per-channel updates mailbox are modelled as emitted
signals. -/

/-- `ChannelState` (client.rs lines 28–34), with the sender halves abstracted
away: a channel is `pending` between `open_channel` and the peer's reply, and
`ready` afterwards. -/
inductive ChSt where
  | pending
  | ready
deriving DecidableEq, Repr

/-- The kinds of `ChannelUpdateKind` the driver distinguishes: `Open(_)`,
`OpenFailed { message, .. }`, and every other variant (data, window adjust,
request, close, …), whose payload is abstracted as a `Nat`. -/
inductive UpdKind where
  | opened
  | openFailed (message : String)
  | other (payload : Nat)
deriving DecidableEq, Repr

/-- A channel update as emitted by the protocol state machine: a channel
number and a kind. -/
structure ChannelUpdate where
  number : Nat
  kind : UpdKind
deriving DecidableEq, Repr

/-- The channel table: `HashMap<ChannelNumber, ChannelState>` as a function. -/
def Table := Nat → Option ChSt

/-- `HashMap::insert` (replacing any previous entry). -/
def Table.insert (t : Table) (n : Nat) (v : ChSt) : Table :=
  fun k => if k = n then some v else t k

/-- `HashMap::remove`. -/
def Table.remove (t : Table) (n : Nat) : Table :=
  fun k => if k = n then none else t k

/-- An observable signal emitted while delivering one channel update: the
oneshot readiness signal of a pending channel (success or failure with the
peer's message), or an update forwarded into a ready channel's mailbox. -/
inductive ChSignal where
  | readySuccess (n : Nat)
  | readyFailure (n : Nat) (message : String)
  | forwardUpdate (n : Nat) (payload : Nat)
deriving DecidableEq, Repr

/-- Delivery of one channel update in `ClientConnection::progress`
(client.rs lines 123–181): `Open` moves a `Pending` entry to `Ready` and
signals success; `OpenFailed` removes a `Pending` entry and signals failure;
any other update on a `Ready` entry is forwarded to its mailbox. An unknown
channel, `Open`/`OpenFailed` on a `Ready` entry, or another update on a
`Pending` entry make `progress` bail, which is fatal to the driver. -/
def handleChannelUpdate (tbl : Table) (upd : ChannelUpdate) :
    Except String (Table × List ChSignal) :=
  match upd.kind with
  | .opened =>
    match tbl upd.number with
    | none => .error "unknown channel"
    | some .pending =>
      .ok (tbl.insert upd.number .ready, [.readySuccess upd.number])
    | some .ready =>
      .error ("attemping to open channel twice: " ++ toString upd.number)
  | .openFailed message =>
    match tbl upd.number with
    | none => .error "unknown channel"
    | some .pending =>
      .ok (tbl.remove upd.number, [.readyFailure upd.number message])
    | some .ready =>
      .error ("attemping to open channel twice: " ++ toString upd.number)
  | .other payload =>
    match tbl upd.number with
    | none => .error "unknown channel"
    | some .pending => .error "channel not ready yet"
    | some .ready => .ok (tbl, [.forwardUpdate upd.number payload])

/-- `ClientConnection::open_channel` (client.rs lines 248–273): the state
machine assigns the number `n` synchronously and a `Pending` entry is inserted
into the table. -/
def openChannel (tbl : Table) (n : Nat) : Table :=
  tbl.insert n .pending

/-- `PendingChannel::wait_ready` (client.rs lines 276–284) as a function of
the value received on the oneshot readiness channel (`none` when the sender
was dropped without sending): `Ok(Ok(()))` yields the channel (abbreviated to
its number), `Ok(Err(err))` yields `Err(Some(err))`, a dropped sender yields
`Err(None)`. Consuming the oneshot resolves it exactly once. -/
def waitReady (n : Nat) (received : Option (Except String Unit)) :
    Except (Option String) Nat :=
  match received with
  | some (.ok ()) => .ok n
  | some (.error e) => .error (some e)
  | none => .error none

end SshTokio

namespace Cluelesshd

/-! ### Concrete fixtures used to instantiate the theorems -/

/-- A concrete system user. -/
def aliceUser : User :=
  { name := "alice", uid := 1000, gid := 1000
    homeDir := "/home/alice", shellPath := "/bin/sh" }

/-- A second, distinct concrete system user. -/
def bobUser : User :=
  { name := "bob", uid := 1001, gid := 1001
    homeDir := "/home/bob", shellPath := "/bin/bash" }

/-- A concrete spawned child handle. -/
def sampleChild : Child := { stdinFd := 5, stdoutFd := 6, stderrFd := 7 }

/-- A concrete external environment: the policy authenticates user `"alice"`
as `aliceUser` and any other user as `bobUser`; PTY allocation and process
spawning succeed with fixed FDs; children exit with status 0. -/
def sampleExt : ExternalEnv :=
  { checkPubkey := fun _ => .ok true
    verifySignature := fun a =>
      if a.user = "alice" then .ok (some aliceUser) else .ok (some bobUser)
    ptyNew := fun _ _ => .ok { controller := 8, userPty := 9 }
    spawn := fun _ => .ok sampleChild
    waitChild := fun _ => .ok (some 0) }

/-- A concrete `VerifySignature` request body for `"alice"`. -/
def verifyAliceArgs : VerifySignatureArgs :=
  { user := "alice", sessionIdentifier := List.replicate 32 0
    pubkeyAlgName := "ssh-ed25519", pubkey := [1], signature := [2] }

/-- A concrete `VerifySignature` request body for `"bob"`. -/
def verifyBobArgs : VerifySignatureArgs :=
  { user := "bob", sessionIdentifier := List.replicate 32 0
    pubkeyAlgName := "ssh-ed25519", pubkey := [3], signature := [4] }

/-- A server state in which `"alice"` has already authenticated and no PTY or
child exists: the state reached from `ServerState.new []` by one successful
`VerifySignature` request. -/
def authedState : ServerState :=
  { hostKeys := [], authenticatedUser := some aliceUser
    ptyUser := none, shellProcess := none }

/-- Whether an effect is a response datagram sent on the socket. -/
def Effect.isReply : Effect → Bool
  | .reply _ _ => true
  | _ => false

/-! ### Claims about the monitor RPC server -/

/-- **C1** (code bug). The claim states that the `AuthenticatedUser` slot is
set at most once and any attempt to authenticate twice is rejected. The code
violates this: in the `VerifySignature` arm, when a user is already
authenticated the server sends the rejection response but does not return, so
it still invokes the verifier and overwrites the stored user. Concretely:
starting from a fresh server, a successful `VerifySignature` for `"alice"`
stores `aliceUser`, and a subsequent `VerifySignature` for `"bob"` — far from
being rejected — replaces the stored user with `bobUser`. -/
theorem c1_double_auth_overwrites_user :
    (execRequests sampleExt (ServerState.new [])
        [.verifySignature verifyAliceArgs]).1.authenticatedUser
      = some aliceUser
    ∧ (execRequests sampleExt (ServerState.new [])
        [.verifySignature verifyAliceArgs,
         .verifySignature verifyBobArgs]).1.authenticatedUser
      = some bobUser
    ∧ aliceUser ≠ bobUser := by
  refine ⟨rfl, rfl, by decide⟩

/-- **C2** (code bug). The claim states that the server sends exactly one
response datagram per request, and that a `VerifySignature` arriving while
`AuthenticatedUser` is set is answered once with `Err(...)` without invoking
the underlying verifier. The code violates this: on a double authentication it
sends the `Err("user already authenticated")` response, then still invokes the
verifier and sends a second response — two response datagrams and one verifier
invocation for a single request. -/
theorem c2_double_auth_two_responses :
    (receiveMessage authedState sampleExt (.verifySignature verifyBobArgs)).2
      = [.reply (.err "user already authenticated") [],
         .callVerifySignature verifyBobArgs,
         .reply (.okBool true) []]
    ∧ ((receiveMessage authedState sampleExt
          (.verifySignature verifyBobArgs)).2.countP
        (fun e => e.isReply)) = 2 := by
  refine ⟨rfl, rfl⟩

/-- The command built by `Server::shell` carries the identity of the user it
was given — program, uid, gid, working directory — and its environment write
sequence is `TERM` (when a PTY is in use), then `USER`, then the
client-supplied pairs, applied to a cleared environment. -/
theorem buildShellCmd_fields (p : Option Nat) (u : User) (req : ShellRequest) :
    (buildShellCmd p u req).program = u.shellPath
    ∧ (buildShellCmd p u req).uid = some u.uid
    ∧ (buildShellCmd p u req).gid = some u.gid
    ∧ (buildShellCmd p u req).currentDir = some u.homeDir
    ∧ (buildShellCmd p u req).envCleared = true
    ∧ (buildShellCmd p u req).envOps =
        (match req.ptyTerm, p with
          | some term, some _ => [("TERM", term)]
          | _, _ => []) ++ [("USER", u.name)] ++ req.env := by
  cases hp : req.ptyTerm <;> cases hf : p <;>
    simp [buildShellCmd, startSessionForCommand, hp]

/-- The only command `Server::shell` ever hands to `Command::spawn` is the one
built by `buildShellCmd` from the given user and request. -/
theorem callSpawn_mem_serverShell {p : Option Nat} {ext : ExternalEnv}
    {u : User} {req : ShellRequest} {cmd : Cmd}
    (h : Effect.callSpawn cmd ∈ (serverShell p ext u req).2) :
    cmd = buildShellCmd p u req := by
  simp only [serverShell] at h
  split at h
  · simp at h
  · split at h
    · simp at h
    · split at h
      · simp_all
      · split at h <;> simp_all

/-- Every spawn performed while servicing a `Shell` request uses the command
built from the *stored* authenticated user. -/
theorem callSpawn_mem_receiveMessage {st : ServerState} {ext : ExternalEnv}
    {u : User} {req : ShellRequest} {cmd : Cmd}
    (hauth : st.authenticatedUser = some u)
    (hmem : Effect.callSpawn cmd ∈ (receiveMessage st ext (.shell req)).2) :
    cmd = buildShellCmd st.ptyUser u req := by
  simp only [receiveMessage] at hmem
  split at hmem
  · simp at hmem
  · rw [hauth] at hmem
    simp only [] at hmem
    split at hmem <;> rename_i heq <;>
    · simp only [List.mem_append, List.mem_singleton] at hmem
      rcases hmem with hmem | hmem
      · apply callSpawn_mem_serverShell
        have : (serverShell st.ptyUser ext u req).2 = _ := congrArg Prod.snd heq
        rw [this]
        exact hmem
      · exact absurd hmem (by simp)

/-- **C3** (confirmed). For every `Shell` request serviced after a successful
`VerifySignature`, the spawned child's effective uid, primary gid, working
directory and shell path are those of the stored authenticated user —
quantification over the request shows the identity is independent of any data
carried in the `Shell` message itself. -/
theorem c3_shell_identity_from_stored_user
    (st : ServerState) (ext : ExternalEnv) (u : User) (req : ShellRequest)
    (cmd : Cmd) (hauth : st.authenticatedUser = some u)
    (hmem : Effect.callSpawn cmd ∈ (receiveMessage st ext (.shell req)).2) :
    cmd.program = u.shellPath ∧ cmd.uid = some u.uid ∧ cmd.gid = some u.gid
      ∧ cmd.currentDir = some u.homeDir := by
  have hcmd := callSpawn_mem_receiveMessage hauth hmem
  subst hcmd
  have h := buildShellCmd_fields st.ptyUser u req
  exact ⟨h.1, h.2.1, h.2.2.1, h.2.2.2.1⟩

/-- A concrete `Shell` request without PTY, command or environment. -/
def plainShellReq : ShellRequest := { ptyTerm := none, command := none, env := [] }

/-- Witness for C3: in the authenticated state, servicing `plainShellReq`
spawns exactly the command built for `aliceUser`, whose identity fields are
alice's. -/
theorem c3_witness :
    authedState.authenticatedUser = some aliceUser
    ∧ Effect.callSpawn (buildShellCmd none aliceUser plainShellReq)
        ∈ (receiveMessage authedState sampleExt (.shell plainShellReq)).2
    ∧ ((buildShellCmd none aliceUser plainShellReq).program = aliceUser.shellPath
        ∧ (buildShellCmd none aliceUser plainShellReq).uid = some aliceUser.uid
        ∧ (buildShellCmd none aliceUser plainShellReq).gid = some aliceUser.gid
        ∧ (buildShellCmd none aliceUser plainShellReq).currentDir
            = some aliceUser.homeDir) :=
  ⟨rfl, by decide,
    c3_shell_identity_from_stored_user authedState sampleExt aliceUser
      plainShellReq (buildShellCmd none aliceUser plainShellReq) rfl (by decide)⟩

/-- **C9** (confirmed). For every `PtyReq` request, the window size handed to
the PTY factory has its row field equal to the request's `width_chars` (as
`u16`) and its column field equal to the request's `height_rows` (as `u16`):
the row and column dimensions are exchanged relative to the request's field
names. -/
theorem c9_winsize_swapped
    (st : ServerState) (ext : ExternalEnv) (preq : PtyRequest)
    (ws : Winsize) (modes : Bytes)
    (hmem : Effect.callPtyNew ws modes ∈ (receiveMessage st ext (.ptyReq preq)).2) :
    ws.row = preq.widthChars % 2 ^ 16 ∧ ws.col = preq.heightRows % 2 ^ 16
    ∧ (preq.widthChars < 2 ^ 16 → ws.row = preq.widthChars)
    ∧ (preq.heightRows < 2 ^ 16 → ws.col = preq.heightRows) := by
  simp only [receiveMessage] at hmem
  split at hmem
  · simp at hmem
  · split at hmem <;>
    · simp only [List.mem_cons, List.mem_singleton, or_false] at hmem
      rcases hmem with hmem | hmem
      · rw [Effect.callPtyNew.injEq] at hmem
        rw [hmem.1]
        exact ⟨rfl, rfl, fun h => Nat.mod_eq_of_lt h, fun h => Nat.mod_eq_of_lt h⟩
      · exact absurd hmem (by simp)

/-- A concrete `PtyReq` request: 24 rows, 80 columns. -/
def samplePtyReq : PtyRequest :=
  { heightRows := 24, widthChars := 80, widthPx := 0, heightPx := 0, termModes := [] }

/-- Witness for C9: allocating a PTY for `samplePtyReq` passes a window size
with `ws_row = 80` (the request's `width_chars`) and `ws_col = 24` (the
request's `height_rows`). -/
theorem c9_witness :
    Effect.callPtyNew { row := 80, col := 24, xpixel := 0, ypixel := 0 } []
      ∈ (receiveMessage (ServerState.new []) sampleExt (.ptyReq samplePtyReq)).2
    ∧ ((80 : Nat) = samplePtyReq.widthChars % 2 ^ 16
        ∧ (24 : Nat) = samplePtyReq.heightRows % 2 ^ 16
        ∧ (samplePtyReq.widthChars < 2 ^ 16 → (80 : Nat) = samplePtyReq.widthChars)
        ∧ (samplePtyReq.heightRows < 2 ^ 16 → (24 : Nat) = samplePtyReq.heightRows)) :=
  ⟨by decide,
    c9_winsize_swapped (ServerState.new []) sampleExt samplePtyReq
      { row := 80, col := 24, xpixel := 0, ypixel := 0 } [] (by decide)⟩

/-- **C10** (confirmed). If a request datagram carries one or more file
descriptors, the `process()` loop fails with an error that is fatal to the RPC
session — no `Err(message)` reply is sent and no request is serviced. -/
theorem c10_request_fds_fatal
    (st : ServerState) (ext : ExternalEnv) (req : Request) (reqFds : List Nat)
    (h : reqFds ≠ []) :
    processStep st ext req reqFds = .error "Client sent FDs in request" := by
  unfold processStep
  cases reqFds with
  | nil => exact absurd rfl h
  | cons a l => rfl

/-- Witness for C10: a `Wait` request datagram carrying the single FD 7 is
fatal. -/
theorem c10_witness :
    ([7] : List Nat) ≠ []
    ∧ processStep authedState sampleExt .wait [7]
        = .error "Client sent FDs in request" :=
  ⟨by decide, c10_request_fds_fatal authedState sampleExt .wait [7] (by decide)⟩

/-- The file-descriptor discipline claimed for a response datagram to a given
request: a `PtyReq` reply carries FDs only on success and then exactly one; a
`Shell` reply carries FDs only on success for a request without a PTY term and
then exactly three; every other reply carries none. -/
def replyFdsOk (req : Request) (e : Effect) : Bool :=
  match e with
  | .reply p fds =>
    match req with
    | .ptyReq _ => fds.isEmpty || (p == .okUnit && fds.length == 1)
    | .shell sreq =>
      fds.isEmpty || (p == .okUnit && sreq.ptyTerm == none && fds.length == 3)
    | _ => fds.isEmpty
  | _ => true

/-- If `Server::shell` succeeds, the FDs it returns for the reply are either
none (PTY in use) or exactly the three parent-side stdio pipe ends of a
request without a PTY term. -/
theorem serverShell_ok_fds {p : Option Nat} {ext : ExternalEnv} {u : User}
    {req : ShellRequest} {fds : List Nat} {child : Child} {effs : List Effect}
    (h : serverShell p ext u req = (.ok (fds, child), effs)) :
    fds = [] ∨ (req.ptyTerm = none ∧ fds.length = 3) := by
  simp only [serverShell] at h
  split at h
  · simp at h
  · split at h
    · simp at h
    · split at h
      · simp at h
      · split at h <;> rename_i hpty <;>
          rw [Prod.mk.injEq, Except.ok.injEq, Prod.mk.injEq] at h
        · exact Or.inl h.1.1.symm
        · refine Or.inr ⟨?_, ?_⟩
          · cases hp : req.ptyTerm
            · rfl
            · rw [hp] at hpty
              simp at hpty
          · rw [← h.1.1]
            rfl

/-- An effect that is not a response datagram trivially satisfies the reply
FD discipline. -/
theorem replyFdsOk_not_reply (req : Request) (e : Effect)
    (h : Effect.isReply e = false) : replyFdsOk req e = true := by
  cases e <;> simp [Effect.isReply] at h ⊢ <;> simp [replyFdsOk]

/-- A reply with no FDs satisfies the discipline for every request kind. -/
theorem replyFdsOk_nil (req : Request) (p : RespPayload) :
    replyFdsOk req (.reply p []) = true := by
  cases req <;> simp [replyFdsOk]

/-- `Server::shell` never sends a response itself: its effect trace contains
only the spawn call. -/
theorem mem_serverShell_not_reply {p : Option Nat} {ext : ExternalEnv}
    {u : User} {req : ShellRequest} {e : Effect}
    (h : e ∈ (serverShell p ext u req).2) : Effect.isReply e = false := by
  simp only [serverShell] at h
  split at h
  · simp at h
  · split at h
    · simp at h
    · split at h
      · simp_all [Effect.isReply]
      · split at h <;> simp_all [Effect.isReply]

/-- **C4** (confirmed). Every response datagram the monitor sends obeys the
FD discipline: a `PtyReq` reply carries FDs only when it succeeds, and then
exactly one (the PTY controller); a `Shell` reply carries FDs only when it
succeeds and the request had no PTY term, and then exactly three (stdin,
stdout, stderr); all other replies carry zero FDs. -/
theorem c4_reply_fd_counts (st : ServerState) (ext : ExternalEnv)
    (req : Request) (e : Effect)
    (hmem : e ∈ (receiveMessage st ext req).2) :
    replyFdsOk req e = true := by
  cases req with
  | sign hash pk =>
    simp only [receiveMessage] at hmem
    split at hmem <;>
    · simp only [List.mem_singleton] at hmem
      subst hmem
      exact replyFdsOk_nil _ _
  | checkPublicKey args =>
    simp only [receiveMessage] at hmem
    split at hmem <;>
    · simp only [List.mem_cons, List.not_mem_nil, or_false] at hmem
      rcases hmem with rfl | rfl
      · exact replyFdsOk_not_reply _ _ rfl
      · exact replyFdsOk_nil _ _
  | verifySignature args =>
    simp only [receiveMessage] at hmem
    split at hmem <;> split at hmem <;>
      simp only [List.mem_append, List.mem_cons, List.not_mem_nil, or_false,
        false_or] at hmem
    all_goals
      first
      | (rcases hmem with rfl | rfl | rfl
         · exact replyFdsOk_nil _ _
         · exact replyFdsOk_not_reply _ _ rfl
         · exact replyFdsOk_nil _ _)
      | (rcases hmem with rfl | rfl
         · exact replyFdsOk_not_reply _ _ rfl
         · exact replyFdsOk_nil _ _)
  | ptyReq preq =>
    simp only [receiveMessage] at hmem
    split at hmem
    · simp only [List.mem_singleton] at hmem
      subst hmem
      exact replyFdsOk_nil _ _
    · split at hmem <;>
        simp only [List.mem_cons, List.not_mem_nil, or_false] at hmem
      · rcases hmem with rfl | rfl
        · exact replyFdsOk_not_reply _ _ rfl
        · rfl
      · rcases hmem with rfl | rfl
        · exact replyFdsOk_not_reply _ _ rfl
        · exact replyFdsOk_nil _ _
  | shell sreq =>
    simp only [receiveMessage] at hmem
    split at hmem
    · simp only [List.mem_singleton] at hmem
      subst hmem
      exact replyFdsOk_nil _ _
    · split at hmem
      · simp only [List.mem_singleton] at hmem
        subst hmem
        exact replyFdsOk_nil _ _
      · rename_i user huser
        split at hmem <;> rename_i heq <;> rw [List.mem_append] at hmem
        · rcases hmem with h | h
          · have h2 : e ∈ (serverShell st.ptyUser ext user sreq).2 := by
              rw [heq]
              exact h
            exact replyFdsOk_not_reply _ _ (mem_serverShell_not_reply h2)
          · simp only [List.mem_singleton] at h
            subst h
            exact replyFdsOk_nil _ _
        · rcases hmem with h | h
          · have h2 : e ∈ (serverShell st.ptyUser ext user sreq).2 := by
              rw [heq]
              exact h
            exact replyFdsOk_not_reply _ _ (mem_serverShell_not_reply h2)
          · simp only [List.mem_singleton] at h
            subst h
            rcases serverShell_ok_fds heq with hf | ⟨hterm, hlen⟩
            · subst hf
              exact replyFdsOk_nil _ _
            · simp [replyFdsOk, hterm, hlen]
  | wait =>
    simp only [receiveMessage] at hmem
    split at hmem
    · simp only [List.mem_singleton] at hmem
      subst hmem
      exact replyFdsOk_nil _ _
    · split at hmem <;>
      · simp only [List.mem_cons, List.not_mem_nil, or_false] at hmem
        rcases hmem with rfl | rfl
        · exact replyFdsOk_not_reply _ _ rfl
        · exact replyFdsOk_nil _ _

/-- Witness for C4: the reply to a `Wait` with no child running carries zero
FDs, as required. -/
theorem c4_witness :
    Effect.reply (.err "no child running") []
      ∈ (receiveMessage (ServerState.new []) sampleExt .wait).2
    ∧ replyFdsOk .wait (Effect.reply (.err "no child running") []) = true :=
  ⟨by decide,
    c4_reply_fd_counts (ServerState.new []) sampleExt .wait
      (Effect.reply (.err "no child running") []) (by decide)⟩

/-- In every run of the monitor, a child process can only exist once a user
has authenticated: `AuthenticatedUser` unset implies `ShellProcess` unset. -/
def UnauthNoChild (st : ServerState) : Prop :=
  st.authenticatedUser = none → st.shellProcess = none

/-- **C5** (confirmed). Violated preconditions yield an `Err(message)` reply
and never a transport-level failure, and the server state is unchanged so the
monitor remains usable: `Shell` before a successful `VerifySignature` (so with
no child running, an invariant established by the first two conjuncts) replies
`Err("unauthenticated")`; `Wait` with no child replies
`Err("no child running")`; a `PtyReq` while a PTY already exists replies
`Err("already requests pty")`. -/
theorem c5_precondition_err_replies (st : ServerState) (ext : ExternalEnv) :
    (∀ hks, UnauthNoChild (ServerState.new hks))
    ∧ (∀ req, UnauthNoChild st → UnauthNoChild (receiveMessage st ext req).1)
    ∧ (st.authenticatedUser = none → st.shellProcess = none →
        ∀ sreq, processStep st ext (.shell sreq) []
          = .ok (st, [.reply (.err "unauthenticated") []]))
    ∧ (st.shellProcess = none →
        processStep st ext .wait []
          = .ok (st, [.reply (.err "no child running") []]))
    ∧ (∀ fd preq, st.ptyUser = some fd →
        processStep st ext (.ptyReq preq) []
          = .ok (st, [.reply (.err "already requests pty") []])) := by
  refine ⟨fun hks => fun _ => rfl, fun req h => ?_, fun h1 h2 sreq => ?_,
    fun h => ?_, fun fd preq h => ?_⟩
  · unfold UnauthNoChild at *
    cases req <;> simp only [receiveMessage] <;> (repeat' split) <;> simp_all
  · simp [processStep, receiveMessage, h1, h2]
  · simp [processStep, receiveMessage, h]
  · simp [processStep, receiveMessage, h]

/-- A state with no authenticated user and no child but with a PTY already
allocated: reached from a fresh server by one successful `PtyReq`. -/
def ptyOnlyState : ServerState :=
  { hostKeys := [], authenticatedUser := none, ptyUser := some 9
    shellProcess := none }

/-- Witness for C5: on `ptyOnlyState` all three precondition violations
produce the claimed `Err` replies with the state unchanged, and the
no-auth-no-child invariant holds initially and is preserved by a step. -/
theorem c5_witness :
    UnauthNoChild (ServerState.new [])
    ∧ UnauthNoChild (receiveMessage ptyOnlyState sampleExt .wait).1
    ∧ processStep ptyOnlyState sampleExt (.shell plainShellReq) []
        = .ok (ptyOnlyState, [.reply (.err "unauthenticated") []])
    ∧ processStep ptyOnlyState sampleExt .wait []
        = .ok (ptyOnlyState, [.reply (.err "no child running") []])
    ∧ processStep ptyOnlyState sampleExt (.ptyReq samplePtyReq) []
        = .ok (ptyOnlyState, [.reply (.err "already requests pty") []]) :=
  ⟨(c5_precondition_err_replies ptyOnlyState sampleExt).1 [],
    (c5_precondition_err_replies ptyOnlyState sampleExt).2.1 .wait
      (fun _ => rfl),
    (c5_precondition_err_replies ptyOnlyState sampleExt).2.2.1 rfl rfl
      plainShellReq,
    (c5_precondition_err_replies ptyOnlyState sampleExt).2.2.2.1 rfl,
    (c5_precondition_err_replies ptyOnlyState sampleExt).2.2.2.2 9
      samplePtyReq rfl⟩

/-- A 1025-byte datagram payload: a valid one-byte `Ok(())` response encoding
followed by 1024 trailing zero bytes. -/
def oversizedPayload : Bytes := 0 :: List.replicate 1024 0

/-- Counterexample to **C6**. The claim states that a payload exceeding the
fixed 1024-byte buffer is treated as a protocol error (truncation detected and
reported) and that more than three FDs in a datagram is a protocol error. The
code checks neither: `recvmsg`'s truncation flags are never inspected.
A 1025-byte datagram is silently truncated to its 1024-byte prefix, which here
parses as a valid `Ok(())` message and is accepted; a datagram with four FDs is
accepted with the first three delivered and the fourth silently dropped. -/
theorem c6_counterexample :
    oversizedPayload.length = 1025
    ∧ receiveWithFds parseResultUnit oversizedPayload [] false
        = .ok (.okUnit, [])
    ∧ receiveWithFds parseResultUnit [0] [10, 11, 12, 13] false
        = .ok (.okUnit, [10, 11, 12]) := by
  refine ⟨?_, rfl, rfl⟩
  unfold oversizedPayload
  rw [List.length_cons, List.length_replicate]

/-- **C6** (corrected). The transport receive operation cannot detect either
kind of truncation: its result on any datagram coincides with its result on
the datagram cut down to the first 1024 payload bytes and the first three FDs.
An oversized payload is silently truncated, and reported as
`"invalid request"` only if the truncated prefix fails to parse; FDs beyond
the third are silently dropped. -/
theorem c6_truncation_unobservable {α : Type} (parse : Bytes → Option α)
    (payload : Bytes) (fds : List Nat) (hasOtherAnc : Bool) :
    receiveWithFds parse payload fds hasOtherAnc
      = receiveWithFds parse (payload.take 1024) (fds.take 3) hasOtherAnc := by
  simp [receiveWithFds, List.take_take]

/-- A `Shell` request whose environment carries a client-chosen `USER` pair. -/
def userOverrideReq : ShellRequest :=
  { ptyTerm := none, command := none, env := [("USER", "evil")] }

/-- Counterexample to **C8**. The claim states that the child's environment is
built by clearing, then applying the client pairs, plus `USER` set to the
authenticated user's name, so that `USER` always maps to the authenticated
user's name. In the code, `cmd.env("USER", user.name())` runs *before* the
loop over the client-supplied pairs, so a client-supplied `USER` pair
overrides it: with alice authenticated and a request carrying
`("USER", "evil")`, the spawned command's environment maps `USER` to
`"evil"`, not `"alice"`. -/
theorem c8_counterexample :
    Effect.callSpawn (buildShellCmd none aliceUser userOverrideReq)
      ∈ (receiveMessage authedState sampleExt (.shell userOverrideReq)).2
    ∧ (buildShellCmd none aliceUser userOverrideReq).envOps
        = [("USER", "alice"), ("USER", "evil")]
    ∧ applyEnvOps (buildShellCmd none aliceUser userOverrideReq).envOps "USER"
        = some "evil"
    ∧ aliceUser.name = "alice"
    ∧ ("evil" : String) ≠ "alice" := by
  refine ⟨by decide, by decide, by decide, rfl, by decide⟩

/-- Folding environment writes over a write map never changes a key none of
the writes touch. -/
theorem foldl_env_no_key (ops : List (String × String))
    (m : String → Option String) (k : String)
    (h : ∀ kv ∈ ops, kv.1 ≠ k) :
    ops.foldl (fun m2 kv => fun k2 => if k2 = kv.1 then some kv.2 else m2 k2)
        m k = m k := by
  induction ops generalizing m with
  | nil => rfl
  | cons kv rest ih =>
    simp only [List.foldl_cons]
    rw [ih _ (fun x hx => h x (List.mem_cons_of_mem _ hx))]
    have hne : kv.1 ≠ k := h kv (List.mem_cons_self _ _)
    rw [if_neg (fun hh => hne hh.symm)]

/-- **C8** (corrected). For every successfully attempted `Shell` spawn, the
environment is built by clearing first, then setting `TERM` (when a PTY is in
use) and `USER = user.name`, and *then* applying the client-supplied pairs in
order, each overriding earlier bindings — so `USER` maps to the authenticated
user's name exactly when the client supplies no `USER` pair of its own. -/
theorem c8_env_build_order (st : ServerState) (ext : ExternalEnv) (u : User)
    (req : ShellRequest) (cmd : Cmd)
    (hauth : st.authenticatedUser = some u)
    (hmem : Effect.callSpawn cmd ∈ (receiveMessage st ext (.shell req)).2) :
    cmd.envCleared = true
    ∧ cmd.envOps
        = (match req.ptyTerm, st.ptyUser with
            | some term, some _ => [("TERM", term)]
            | _, _ => []) ++ [("USER", u.name)] ++ req.env
    ∧ ((∀ kv ∈ req.env, kv.1 ≠ "USER") →
        applyEnvOps cmd.envOps "USER" = some u.name) := by
  have hcmd := callSpawn_mem_receiveMessage hauth hmem
  subst hcmd
  obtain ⟨h1, h2, h3, h4, hclr, hops⟩ := buildShellCmd_fields st.ptyUser u req
  refine ⟨hclr, hops, fun hnk => ?_⟩
  rw [hops]
  unfold applyEnvOps
  rw [List.foldl_append, List.foldl_append, foldl_env_no_key _ _ _ hnk]
  simp

/-- A `Shell` request whose environment does not touch `USER`. -/
def cleanEnvReq : ShellRequest :=
  { ptyTerm := none, command := none, env := [("PATH", "/usr/bin")] }

/-- Witness for C8: with alice authenticated and a client environment not
containing `USER`, the spawned command's environment maps `USER` to
`"alice"`. -/
theorem c8_witness :
    authedState.authenticatedUser = some aliceUser
    ∧ Effect.callSpawn (buildShellCmd none aliceUser cleanEnvReq)
        ∈ (receiveMessage authedState sampleExt (.shell cleanEnvReq)).2
    ∧ (∀ kv ∈ cleanEnvReq.env, kv.1 ≠ "USER")
    ∧ applyEnvOps (buildShellCmd none aliceUser cleanEnvReq).envOps "USER"
        = some aliceUser.name :=
  ⟨rfl, by decide, by decide,
    (c8_env_build_order authedState sampleExt aliceUser cleanEnvReq
        (buildShellCmd none aliceUser cleanEnvReq) rfl (by decide)).2.2
      (by decide)⟩

end Cluelesshd

namespace SshTokio

/-- **C7** (confirmed). For the client driver's channel table: an `Open`
update for a `Pending` channel moves it to `Ready` and signals readiness with
success; an `OpenFailed` update for a `Pending` channel removes it and signals
readiness with the failure message; any other update for a `Pending` channel,
and `Open`/`OpenFailed` for a `Ready` channel, are fatal protocol violations.
After either readiness outcome no `Pending` entry remains for that channel,
and each resolution of the oneshot readiness signal produces exactly one
`wait_ready` outcome (success, failure with the message, or failure without a
message when the sender is dropped). -/
theorem c7_channel_open_lifecycle (tbl : Table) (upd : ChannelUpdate) :
    (tbl upd.number = some .pending →
      (upd.kind = .opened →
        handleChannelUpdate tbl upd
          = .ok (tbl.insert upd.number .ready, [.readySuccess upd.number])
        ∧ (tbl.insert upd.number .ready) upd.number = some .ready)
      ∧ (∀ m, upd.kind = .openFailed m →
        handleChannelUpdate tbl upd
          = .ok (tbl.remove upd.number, [.readyFailure upd.number m])
        ∧ (tbl.remove upd.number) upd.number = none)
      ∧ (∀ d, upd.kind = .other d →
        handleChannelUpdate tbl upd = .error "channel not ready yet"))
    ∧ (tbl upd.number = some .ready →
        (upd.kind = .opened ∨ (∃ m, upd.kind = .openFailed m) →
          ∃ msg, handleChannelUpdate tbl upd = .error msg))
    ∧ (∀ n, waitReady n (some (.ok ())) = .ok n)
    ∧ (∀ n e, waitReady n (some (.error e)) = .error (some e))
    ∧ (∀ n, waitReady n none = .error none) := by
  obtain ⟨n, k⟩ := upd
  refine ⟨fun hp => ⟨fun hk => ?_, fun m hk => ?_, fun d hk => ?_⟩,
    fun hr hk => ?_, fun n2 => rfl, fun n2 e => rfl, fun n2 => rfl⟩
  · subst hk
    exact ⟨by simp [handleChannelUpdate, hp], by simp [Table.insert]⟩
  · subst hk
    exact ⟨by simp [handleChannelUpdate, hp], by simp [Table.remove]⟩
  · subst hk
    simp [handleChannelUpdate, hp]
  · rcases hk with hk | ⟨m, hk⟩ <;> subst hk
    · exact ⟨"attemping to open channel twice: " ++ toString n,
        by simp [handleChannelUpdate, hr]⟩
    · exact ⟨"attemping to open channel twice: " ++ toString n,
        by simp [handleChannelUpdate, hr]⟩

/-- Witness for C7: on a table holding exactly one channel opened as number 1
(hence `Pending`), an `Open` update moves it to `Ready` and signals success,
and the three `wait_ready` resolutions behave as stated. -/
theorem c7_witness :
    (openChannel (fun _ => none) 1) 1 = some .pending
    ∧ (handleChannelUpdate (openChannel (fun _ => none) 1) ⟨1, .opened⟩
        = .ok ((openChannel (fun _ => none) 1).insert 1 .ready,
            [.readySuccess 1])
        ∧ ((openChannel (fun _ => none) 1).insert 1 .ready) 1 = some .ready)
    ∧ waitReady 1 (some (.ok ())) = .ok 1
    ∧ waitReady 1 (some (.error "open denied")) = .error (some "open denied")
    ∧ waitReady 1 none = .error none :=
  ⟨rfl,
    ((c7_channel_open_lifecycle (openChannel (fun _ => none) 1)
        ⟨1, .opened⟩).1 rfl).1 rfl,
    (c7_channel_open_lifecycle (openChannel (fun _ => none) 1)
        ⟨1, .opened⟩).2.2.1 1,
    (c7_channel_open_lifecycle (openChannel (fun _ => none) 1)
        ⟨1, .opened⟩).2.2.2.1 1 "open denied",
    (c7_channel_open_lifecycle (openChannel (fun _ => none) 1)
        ⟨1, .opened⟩).2.2.2.2 1⟩

end SshTokio
